import Mathlib

/-!
Shallow embedding of the species-catalogue client
(`src/app/species/species-details-dialog.tsx`,
`src/app/species/species-list-client.tsx`, `src/unnamed/part_000`).

Pure fragments (the zod schema, the sort derivation, the JSX control
rendering) become Lean functions; the event handlers (`onSubmit`,
`onDelete`, `handleCancel`) become functions from the dialog state and the
backend call's result to the new state plus an explicit list of observable
effects (persistence calls, toasts, router refresh).  String operations
are implemented structurally over `List Char` so that every definition
evaluates inside the kernel.
-/

/-- JavaScript `String.prototype.trim` over a character list. -/
def trimList (cs : List Char) : List Char :=
  ((cs.dropWhile Char.isWhitespace).reverse.dropWhile Char.isWhitespace).reverse

/-- JavaScript `String.prototype.trim`. -/
def jsTrim (s : String) : String :=
  String.mk (trimList s.toList)

/-- Split a character list on a separator character (like `splitOn`). -/
def splitOnChar (c : Char) : List Char → List (List Char)
  | [] => [[]]
  | x :: xs =>
    if x == c then [] :: splitOnChar c xs
    else
      match splitOnChar c xs with
      | [] => [[x]]
      | ys :: rest => (x :: ys) :: rest

/-- A JavaScript number as it flows through the form: NaN, or the decimal
value `mant / 10 ^ exp`.  Exponent and hexadecimal literal forms of
`ToNumber` are outside the strings an `<input type=number>` can yield and
are modelled as NaN. -/
inductive JsNum where
  | nan : JsNum
  | num (mant : ℤ) (exp : ℕ) : JsNum
deriving DecidableEq, Repr

/-- `Number.isInteger` as used by zod's `.int()` check (false on NaN). -/
def JsNum.isInt : JsNum → Bool
  | .nan => false
  | .num m e => m % ((10 : ℤ) ^ e) == 0

/-- `n > b` on JS numbers (false on NaN), as used by zod's `.positive()`. -/
def JsNum.gtNum : JsNum → ℤ → Bool
  | .nan, _ => false
  | .num m e, b => decide (b * (10 : ℤ) ^ e < m)

/-- `n ≥ b` on JS numbers (false on NaN), as used by zod's `.min(1)`. -/
def JsNum.geNum : JsNum → ℤ → Bool
  | .nan, _ => false
  | .num m e, b => decide (b * (10 : ℤ) ^ e ≤ m)

/-- One decimal digit of a JS numeric string. -/
def decDigit? (c : Char) : Option ℕ :=
  if c.isDigit then some (c.toNat - 48) else none

/-- Fold a digit sequence to a natural number; `[]` folds to `0`
(matching `ToNumber`, where `".5"` and `"5."` are valid). -/
def parseNatDigits (cs : List Char) : Option ℕ :=
  cs.foldl
    (fun acc c =>
      match acc, decDigit? c with
      | some n, some d => some (n * 10 + d)
      | _, _ => none)
    (some 0)

/-- ECMAScript `ToNumber` on the strings a number input can hold: the
empty (or whitespace-only) string coerces to `0`, signed decimal strings
to their value, anything else to NaN.  This is the `+event.target.value`
coercion of the total-population change handler
(species-details-dialog.tsx line 269). -/
def jsToNumber (s : String) : JsNum :=
  let t := trimList s.toList
  if t = [] then JsNum.num 0 0
  else
    let (sign, body) :=
      match t with
      | '-' :: rest => ((-1 : ℤ), rest)
      | '+' :: rest => ((1 : ℤ), rest)
      | cs => ((1 : ℤ), cs)
    match splitOnChar '.' body with
    | [intPart] =>
      if intPart = [] then JsNum.nan
      else
        match parseNatDigits intPart with
        | some n => JsNum.num (sign * n) 0
        | none => JsNum.nan
    | [intPart, fracPart] =>
      if intPart = [] ∧ fracPart = [] then JsNum.nan
      else
        match parseNatDigits intPart, parseNatDigits fracPart with
        | some i, some f =>
            JsNum.num (sign * ((i : ℤ) * (10 : ℤ) ^ fracPart.length + (f : ℤ)))
              fracPart.length
        | _, _ => JsNum.nan
    | _ => JsNum.nan

/-- The closed set of kingdom labels
(`z.enum([...])`, species-details-dialog.tsx line 23). -/
def kingdoms : List String :=
  ["Animalia", "Plantae", "Fungi", "Protista", "Archaea", "Bacteria"]

/-- A scheme character per WHATWG URL (`ALPHA / DIGIT / "+" / "-" / "."`). -/
def isSchemeChar (c : Char) : Bool :=
  c.isAlphanum || c == '+' || c == '-' || c == '.'

/-- Success of `new URL(s)` as invoked by zod's `.url()` check: the string
must begin with a scheme (a letter followed by scheme characters) and a
colon.  In particular the empty and whitespace-only strings are not
well-formed URLs. -/
def isWellFormedURL (s : String) : Bool :=
  match splitOnChar ':' s.toList with
  | [] => false
  | [_] => false
  | scheme :: _ =>
    match scheme with
    | [] => false
    | c :: cs => c.isAlpha && cs.all isSchemeChar

/-- The shared transform of the three nullable string fields
(species-details-dialog.tsx lines 36, 44, 49):
`(val) => (!val || val.trim() === "" ? null : val.trim())`.
`!val` is true exactly on `null` and the empty string. -/
def jsOptNormalize (v : Option String) : Option String :=
  match v with
  | none => none
  | some s => if s == "" || jsTrim s == "" then none else some (jsTrim s)

/-- The raw field values handed to the zod resolver: the types the
react-hook-form state holds for each field. -/
structure RawForm where
  scientific_name : String
  common_name : Option String
  kingdom : String
  total_population : Option JsNum
  image : Option String
  description : Option String
  endangered : Bool
deriving DecidableEq, Repr

/-- `scientific_name: z.string().trim().min(1).transform(val =>
val?.trim())` — trim, require nonempty, trim again. -/
def parseScientificName (s : String) : Option String :=
  let t := jsTrim s
  if 1 ≤ t.toList.length then some (jsTrim t) else none

/-- `common_name: z.string().nullable().transform(...)` — no check can
fail; the transform normalizes empty or whitespace-only input to null. -/
def parseCommonName (v : Option String) : Option (Option String) :=
  some (jsOptNormalize v)

/-- `kingdom: kingdoms` — membership in the closed enum. -/
def parseKingdom (s : String) : Option String :=
  if kingdoms.contains s then some s else none

/-- `total_population: z.number().int().positive().min(1).nullable()` —
null passes; a number must be an integer, strictly positive and ≥ 1. -/
def parseTotalPopulation (v : Option JsNum) : Option (Option JsNum) :=
  match v with
  | none => some none
  | some n =>
    if n.isInt && n.gtNum 0 && n.geNum 1 then some (some n) else none

/-- `image: z.string().url().nullable().transform(...)` — the `.url()`
check runs on any non-null string BEFORE the empty-to-null transform, so
a non-null string must be a well-formed URL to reach the transform. -/
def parseImage (v : Option String) : Option (Option String) :=
  match v with
  | none => some none
  | some s =>
    if isWellFormedURL s then some (jsOptNormalize (some s)) else none

/-- `description: z.string().nullable().transform(...)` — identical to
`common_name`. -/
def parseDescription (v : Option String) : Option (Option String) :=
  some (jsOptNormalize v)

/-- Field identifiers of the species schema, in declaration order. -/
inductive FieldId where
  | scientificName
  | commonName
  | kingdomField
  | totalPopulation
  | image
  | description
  | endangered
deriving DecidableEq, Repr

/-- The set of field-level violations the zod resolver reports for a raw
form value: zod parses every field of the object and collects an issue
for each failing one (the `endangered` boolean cannot fail). -/
def speciesViolations (r : RawForm) : List FieldId :=
  (if (parseScientificName r.scientific_name).isNone then [FieldId.scientificName] else []) ++
  (if (parseCommonName r.common_name).isNone then [FieldId.commonName] else []) ++
  (if (parseKingdom r.kingdom).isNone then [FieldId.kingdomField] else []) ++
  (if (parseTotalPopulation r.total_population).isNone then [FieldId.totalPopulation] else []) ++
  (if (parseImage r.image).isNone then [FieldId.image] else []) ++
  (if (parseDescription r.description).isNone then [FieldId.description] else [])


/-- Insert into a sorted list, after any element it does not strictly
precede: with a total preorder `le` this is the stable insertion. -/
def insertLe {α : Type} (le : α → α → Bool) (x : α) : List α → List α
  | [] => [x]
  | y :: ys => if le x y then x :: y :: ys else y :: insertLe le x ys

/-- Stable sort (insertion sort), modelling the stable
`Array.prototype.sort` required by ES2019. -/
def sortStable {α : Type} (le : α → α → Bool) : List α → List α
  | [] => []
  | x :: xs => insertLe le x (sortStable le xs)

/-- A row of the species table (`Database["public"]["Tables"]["species"]["Row"]`). -/
structure Species where
  id : ℕ
  scientific_name : String
  common_name : Option String
  kingdom : String
  total_population : Option ℤ
  image : Option String
  description : Option String
  endangered : Bool
  author : String
deriving DecidableEq, Repr

/-- Lexicographic comparison of character lists by code point. -/
def cmpCharList : List Char → List Char → Ordering
  | [], [] => .eq
  | [], _ :: _ => .lt
  | _ :: _, [] => .gt
  | a :: as, b :: bs =>
    match compare a b with
    | .eq => cmpCharList as bs
    | o => o

/-- `a.toLowerCase().localeCompare(b.toLowerCase())` of the sort callback
(species-list-client.tsx lines 20-22), returning a negative, zero or
positive number. -/
def localeCompareLower (a b : String) : ℤ :=
  match cmpCharList (a.toList.map Char.toLower) (b.toList.map Char.toLower) with
  | .lt => -1
  | .eq => 0
  | .gt => 1

/-- The sort direction state, `useState("asc")`. -/
inductive SortOrder where
  | asc
  | desc
deriving DecidableEq, Repr

/-- The comparator passed to `.sort`: `sortOrder === "asc" ?
comparisonResult : -comparisonResult` (species-list-client.tsx line 24). -/
def sortComparator (o : SortOrder) (a b : Species) : ℤ :=
  let comparisonResult := localeCompareLower a.scientific_name b.scientific_name
  match o with
  | .asc => comparisonResult
  | .desc => -comparisonResult

/-- The displayed ordering derived by the sort effect: the collection
sorted stably by the comparator. -/
def deriveDisplayed (src : List Species) (o : SortOrder) : List Species :=
  sortStable (fun a b => decide (sortComparator o a b ≤ 0)) src

/-- The list view's state: the `initialSpecies` prop's array contents,
the `sortOrder` state and the `species` state (the displayed list). -/
structure ListState where
  source : List Species
  sortOrder : SortOrder
  displayed : List Species
deriving DecidableEq, Repr

/-- `handleSortToggle`: `sortOrder === "asc" ? "desc" : "asc"`. -/
def handleSortToggle (o : SortOrder) : SortOrder :=
  match o with
  | .asc => .desc
  | .desc => .asc

/-- The sort effect of `species-list-client.tsx` (lines 18-28):
`[...initialSpecies].sort(...)` sorts a COPY, so the source array is left
unchanged and only the displayed list is replaced. -/
def copySortStep (st : ListState) : ListState :=
  { st with displayed := deriveDisplayed st.source st.sortOrder }

/-- The sort effect of the URL-driven variant (`src/unnamed/part_000`,
lines 29-39): `initialSpecies.sort(...)` sorts the source array IN PLACE,
so the source array contents are replaced by the sorted sequence. -/
def inPlaceSortStep (st : ListState) : ListState :=
  let sortedSpecies := deriveDisplayed st.source st.sortOrder
  { st with source := sortedSpecies, displayed := sortedSpecies }

/-- Toggling in the local-state variant: flip `sortOrder`, then the
effect re-derives the displayed list from the (copied) source. -/
def toggleStep (st : ListState) : ListState :=
  copySortStep { st with sortOrder := handleSortToggle st.sortOrder }

/-- The values react-hook-form holds for the dialog's fields (the
`FormData` draft): strings for text inputs, `null`-able values for the
optional fields, a JS number for the population. -/
structure FormVals where
  scientific_name : String
  common_name : Option String
  kingdom : String
  total_population : Option JsNum
  image : Option String
  description : Option String
  endangered : Bool
deriving DecidableEq, Repr

/-- `defaultValues` (species-details-dialog.tsx lines 74-82): the form
defaults seeded from the `species` prop. -/
def defaultValuesOf (sp : Species) : FormVals :=
  { scientific_name := sp.scientific_name
    common_name := sp.common_name
    kingdom := sp.kingdom
    total_population := sp.total_population.map (fun n => JsNum.num n 0)
    image := sp.image
    description := sp.description
    endangered := sp.endangered }

/-- The dialog's client state: the `isEditing` flag and the form's
current values and reset baseline. -/
structure DialogState where
  isEditing : Bool
  formValues : FormVals
  baseline : FormVals
deriving DecidableEq, Repr

/-- An observable side effect of a dialog handler. -/
inductive Effect where
  | persistUpdate (id : ℕ) (input : FormVals) : Effect
  | persistDelete (id : ℕ) : Effect
  | toastSuccess (title descr : String) : Effect
  | toastFailure (title descr : String) : Effect
  | refresh : Effect
deriving DecidableEq, Repr

/-- Whether an effect is a user-facing toast. -/
def Effect.isToast : Effect → Bool
  | .toastSuccess _ _ => true
  | .toastFailure _ _ => true
  | _ => false

/-- `onSubmit` (species-details-dialog.tsx lines 111-132), with the
backend `update` call's outcome passed in as `updateResult` (`some msg`
for an error with message `msg`, `none` for success).  On error: a
single destructive toast and an early return, so the state is untouched.
On success: leave edit mode, reset the form to the submitted input,
refresh the router and toast success. -/
def onSubmit (input : FormVals) (updateResult : Option String) (sp : Species)
    (st : DialogState) : DialogState × List Effect :=
  match updateResult with
  | some msg =>
    (st, [Effect.persistUpdate sp.id input,
          Effect.toastFailure "st went wrong" msg])
  | none =>
    ({ isEditing := false, formValues := input, baseline := input },
     [Effect.persistUpdate sp.id input,
      Effect.refresh,
      Effect.toastSuccess "Changes saved!"
        ("Saved your changes to " ++ input.scientific_name ++ ".")])

/-- `handleCancel` (species-details-dialog.tsx lines 139-148):
`window.confirm("Discard all changes?")`; on Cancel return early; on OK
reset the form to `defaultValues` and leave edit mode.  No persistence
call in either branch. -/
def handleCancel (confirmed : Bool) (sp : Species) (st : DialogState) :
    DialogState × List Effect :=
  if confirmed then
    ({ isEditing := false,
       formValues := defaultValuesOf sp,
       baseline := defaultValuesOf sp }, [])
  else (st, [])

/-- `startEditing` (species-details-dialog.tsx lines 134-137). -/
def startEditing (st : DialogState) : DialogState :=
  { st with isEditing := true }

/-- `onDelete` (species-details-dialog.tsx lines 150-170), with the
backend `delete` call's outcome passed in as `deleteResult`.  Inside the
confirmation guard: the delete call; on error a destructive toast WITHOUT
an early return; then unconditionally a router refresh and the
"Deletion saved!" success toast. -/
def onDelete (confirmed : Bool) (deleteResult : Option String) (sp : Species) :
    List Effect :=
  if confirmed then
    [Effect.persistDelete sp.id] ++
    (match deleteResult with
     | some msg => [Effect.toastFailure "st went wrong" msg]
     | none => []) ++
    [Effect.refresh,
     Effect.toastSuccess "Deletion saved!"
       ("Deleted " ++ sp.scientific_name ++ " successfully.")]
  else []

/-- A button of the author-only control row. -/
inductive Control where
  | editBtn
  | deleteBtn
  | confirmBtn
  | cancelBtn
deriving DecidableEq, Repr

/-- The author-only controls rendered by the dialog's JSX
(species-details-dialog.tsx lines 342-368): the whole row is guarded by
`species.author === currentUser`; inside it, the `isEditing` branch shows
Confirm/Cancel and the other branch shows Edit/Delete. -/
def renderedControls (sp : Species) (currentUser : String) (isEditing : Bool) :
    List Control :=
  if sp.author == currentUser then
    if isEditing then [Control.confirmBtn, Control.cancelBtn]
    else [Control.editBtn, Control.deleteBtn]
  else []

/-- The total-population change handler (species-details-dialog.tsx line
269): `field.onChange(+event.target.value)` stores the unary-plus numeric
coercion of the raw input string into the form state.  The stored field
value is always a number, never `null`. -/
def populationOnChange (raw : String) : Option JsNum :=
  some (jsToNumber raw)

/-- The scenario record of the spec (§8): scientific name "Felis catus",
empty common name, kingdom "Animalia", total population 0, remaining
optional fields absent. -/
def felisCatusRaw : RawForm :=
  { scientific_name := "Felis catus"
    common_name := some ""
    kingdom := "Animalia"
    total_population := some (JsNum.num 0 0)
    image := none
    description := none
    endangered := false }

/-- A concrete species row used to instantiate the dialog theorems. -/
def demoSpecies : Species :=
  { id := 7
    scientific_name := "Cavia porcellus"
    common_name := some "Guinea pig"
    kingdom := "Animalia"
    total_population := some 300000
    image := none
    description := none
    endangered := false
    author := "user-1" }

/-- A concrete dialog state in edit mode over `demoSpecies`. -/
def demoDialogState : DialogState :=
  { isEditing := true
    formValues := defaultValuesOf demoSpecies
    baseline := defaultValuesOf demoSpecies }

/-- A concrete species row whose scientific name sorts first. -/
def speciesA : Species :=
  { id := 1
    scientific_name := "Aardvark"
    common_name := none
    kingdom := "Animalia"
    total_population := none
    image := none
    description := none
    endangered := false
    author := "user-1" }

/-- A concrete species row whose scientific name sorts last. -/
def speciesB : Species :=
  { id := 2
    scientific_name := "Zebra"
    common_name := none
    kingdom := "Animalia"
    total_population := none
    image := none
    description := none
    endangered := false
    author := "user-2" }

/-- A concrete settled list state: the displayed list equals the derived
ordering of the source for the current sort order. -/
def demoListState : ListState :=
  { source := [speciesA, speciesB]
    sortOrder := SortOrder.asc
    displayed := [speciesA, speciesB] }

/-- C8: for the optional text fields `common_name` and `description`,
empty or whitespace-only input yields the absent marker (`null`), never
the empty string, and any other input is output trimmed. -/
theorem c8_optional_text_normalizes (s : String) :
    parseCommonName (some s) =
      some (if jsTrim s == "" then none else some (jsTrim s)) ∧
    parseDescription (some s) =
      some (if jsTrim s == "" then none else some (jsTrim s)) ∧
    parseCommonName (some s) ≠ some (some "") ∧
    parseDescription (some s) ≠ some (some "") := by
  have hcond : (s == "" || jsTrim s == "") = (jsTrim s == "") := by
    by_cases h : s = ""
    · subst h
      decide
    · simp [h]
  have hnorm : jsOptNormalize (some s) =
      if jsTrim s == "" then none else some (jsTrim s) := by
    simp only [jsOptNormalize, hcond]
  have haux : (if jsTrim s == "" then (none : Option String) else some (jsTrim s)) ≠
      some "" := by
    by_cases h : (jsTrim s == "") = true
    · simp [h]
    · have hne : jsTrim s ≠ "" := by simpa using h
      simp [h, hne]
  refine ⟨by simp [parseCommonName, hnorm], by simp [parseDescription, hnorm], ?_, ?_⟩ <;>
    simp [parseCommonName, parseDescription, hnorm, haux]

/-- C9: the "Felis catus" record with empty common name, kingdom
Animalia and total population 0 fails validation with a violation
reported for the population field only, while the empty common name
normalizes to the absent marker. -/
theorem c9_felis_catus_population_only :
    speciesViolations felisCatusRaw = [FieldId.totalPopulation] ∧
    parseCommonName felisCatusRaw.common_name = some none ∧
    parseTotalPopulation felisCatusRaw.total_population = none := by
  decide

/-- C10: the population change handler stores the unary-plus numeric
coercion of the raw string — never the absent marker — so clearing the
field stores the number 0, which the schema's positive-integer check
rejects instead of treating the field as absent. -/
theorem c10_population_clear_stores_zero :
    (∀ s : String, populationOnChange s = some (jsToNumber s)) ∧
    populationOnChange "" = some (JsNum.num 0 0) ∧
    (∀ s : String, populationOnChange s ≠ none) ∧
    parseTotalPopulation (populationOnChange "") = none := by
  refine ⟨fun s => rfl, by decide, fun s => by simp [populationOnChange], by decide⟩

/-- C3: evaluation of the image-field parser at the inputs the claim is
about.  The empty and whitespace-only strings FAIL validation (the
`.url()` check runs before the empty-to-null transform), contrary to the
claim and to the code's own inline comment; only `null` passes as absent,
and a well-formed URL passes through trimmed. -/
theorem c3_image_empty_string_rejected :
    parseImage (some "") = none ∧
    parseImage (some " ") = none ∧
    parseImage none = some none ∧
    parseImage (some "https://example.org/a.png") =
      some (some "https://example.org/a.png") := by
  decide

/-- C1: evaluation of the delete handler at a failing backend call: with
the deletion confirmed and the backend reporting an error, the handler
emits TWO toasts — the failure toast and, because there is no early
return, also the "Deletion saved!" success toast — and still refreshes. -/
theorem c1_failed_delete_emits_two_toasts :
    ((onDelete true (some "permission denied") demoSpecies).filter
      Effect.isToast).length = 2 ∧
    Effect.toastFailure "st went wrong" "permission denied" ∈
      onDelete true (some "permission denied") demoSpecies ∧
    Effect.toastSuccess "Deletion saved!" "Deleted Cavia porcellus successfully." ∈
      onDelete true (some "permission denied") demoSpecies ∧
    Effect.refresh ∈ onDelete true (some "permission denied") demoSpecies := by
  decide

/-- C2 counterexample: for a record whose author IS the session identity,
in the Editing state the delete control is not rendered — refuting the
claim that the delete action is available in both controller states. -/
theorem c2_counterexample :
    demoSpecies.author = "user-1" ∧
    Control.deleteBtn ∉ renderedControls demoSpecies "user-1" true := by
  decide

/-- C2 (amended): the delete control is rendered iff the session identity
equals the record's author identifier AND the controller is in the
Viewing state; without confirmation the delete handler issues no
request, and with confirmation it issues the deletion request. -/
theorem c2_delete_rendering (sp : Species) (u : String) (e : Bool)
    (r : Option String) :
    (Control.deleteBtn ∈ renderedControls sp u e ↔ (sp.author = u ∧ e = false)) ∧
    onDelete false r sp = [] ∧
    Effect.persistDelete sp.id ∈ onDelete true r sp := by
  refine ⟨?_, by simp [onDelete], ?_⟩
  · by_cases h : sp.author = u
    · cases e <;> simp [renderedControls, h]
    · have hb : (sp.author == u) = false := by simpa using h
      simp [renderedControls, hb, h]
  · cases r <;> simp [onDelete]

/-- C5: in the Editing state, a confirmed cancel resets the draft to the
committed baseline (the `defaultValues` derived from the species record),
leaves edit mode and makes no persistence call; a rejected cancel leaves
the state untouched, still in Editing. -/
theorem c5_cancel_discard (sp : Species) (st : DialogState)
    (h : st.isEditing = true) :
    (handleCancel true sp st).1.isEditing = false ∧
    (handleCancel true sp st).1.formValues = defaultValuesOf sp ∧
    (handleCancel true sp st).2 = [] ∧
    handleCancel false sp st = (st, []) ∧
    (handleCancel false sp st).1.isEditing = true := by
  simp [handleCancel, h]

/-- C5 witness: the cancel theorem instantiated at the demo dialog state. -/
theorem c5_cancel_discard_witness :
    demoDialogState.isEditing = true ∧
    ((handleCancel true demoSpecies demoDialogState).1.isEditing = false ∧
     (handleCancel true demoSpecies demoDialogState).1.formValues =
       defaultValuesOf demoSpecies ∧
     (handleCancel true demoSpecies demoDialogState).2 = [] ∧
     handleCancel false demoSpecies demoDialogState = (demoDialogState, []) ∧
     (handleCancel false demoSpecies demoDialogState).1.isEditing = true) :=
  ⟨by decide, c5_cancel_discard demoSpecies demoDialogState (by decide)⟩

/-- C6: a failed commit produces exactly the update request and one
failure toast carrying the backend's message, and leaves the dialog
state entirely unchanged: still Editing, draft and baseline intact. -/
theorem c6_failed_commit_no_transition (input : FormVals) (msg : String)
    (sp : Species) (st : DialogState) (h : st.isEditing = true) :
    onSubmit input (some msg) sp st =
      (st, [Effect.persistUpdate sp.id input,
            Effect.toastFailure "st went wrong" msg]) ∧
    (onSubmit input (some msg) sp st).1.isEditing = true ∧
    (onSubmit input (some msg) sp st).1.formValues = st.formValues ∧
    (onSubmit input (some msg) sp st).1.baseline = st.baseline ∧
    ((onSubmit input (some msg) sp st).2.filter Effect.isToast) =
      [Effect.toastFailure "st went wrong" msg] := by
  simp [onSubmit, h, Effect.isToast, List.filter]

/-- C6 witness: the failed-commit theorem instantiated at the demo
dialog state with a concrete backend message. -/
theorem c6_failed_commit_no_transition_witness :
    demoDialogState.isEditing = true ∧
    (onSubmit (defaultValuesOf demoSpecies) (some "row level security")
        demoSpecies demoDialogState =
      (demoDialogState,
       [Effect.persistUpdate demoSpecies.id (defaultValuesOf demoSpecies),
        Effect.toastFailure "st went wrong" "row level security"]) ∧
     (onSubmit (defaultValuesOf demoSpecies) (some "row level security")
        demoSpecies demoDialogState).1.isEditing = true ∧
     (onSubmit (defaultValuesOf demoSpecies) (some "row level security")
        demoSpecies demoDialogState).1.formValues = demoDialogState.formValues ∧
     (onSubmit (defaultValuesOf demoSpecies) (some "row level security")
        demoSpecies demoDialogState).1.baseline = demoDialogState.baseline ∧
     ((onSubmit (defaultValuesOf demoSpecies) (some "row level security")
        demoSpecies demoDialogState).2.filter Effect.isToast) =
      [Effect.toastFailure "st went wrong" "row level security"]) :=
  ⟨by decide,
   c6_failed_commit_no_transition (defaultValuesOf demoSpecies)
     "row level security" demoSpecies demoDialogState (by decide)⟩

/-- C4 counterexample: in the URL-driven variant the sort effect sorts the
source collection in place — at a concrete unsorted collection the source
after re-derivation differs from the source before, refuting the claim
that re-derivation never mutates the underlying source collection. -/
theorem c4_counterexample :
    (inPlaceSortStep
      { source := [speciesB, speciesA], sortOrder := SortOrder.asc,
        displayed := [speciesB, speciesA] }).source ≠ [speciesB, speciesA] := by
  decide

/-- C4 (amended): the copy-sort variant never mutates the source
collection and its re-derivation is idempotent and repeatable, while the
in-place variant replaces the source with the sorted sequence. -/
theorem c4_copy_sort_frame (st : ListState) :
    (copySortStep st).source = st.source ∧
    (copySortStep st).sortOrder = st.sortOrder ∧
    copySortStep (copySortStep st) = copySortStep st ∧
    (inPlaceSortStep st).source = deriveDisplayed st.source st.sortOrder := by
  exact ⟨rfl, rfl, rfl, rfl⟩

/-- C7: from a settled list state (displayed = derived ordering of the
source), toggling the sort twice returns the state — and in particular
the displayed ordering — to exactly what it was; the toggle itself is an
involution on the sort order. -/
theorem c7_toggle_twice_identity (st : ListState)
    (h : st.displayed = deriveDisplayed st.source st.sortOrder) :
    toggleStep (toggleStep st) = st ∧
    (∀ o : SortOrder, handleSortToggle (handleSortToggle o) = o) := by
  constructor
  · cases st with
    | mk src o disp =>
      cases o <;>
        simp only [toggleStep, copySortStep, handleSortToggle] <;>
        exact congrArg (ListState.mk src _) h.symm
  · intro o
    cases o <;> rfl

/-- C7 witness: the toggle-twice theorem instantiated at the settled demo
list state. -/
theorem c7_toggle_twice_identity_witness :
    demoListState.displayed =
      deriveDisplayed demoListState.source demoListState.sortOrder ∧
    (toggleStep (toggleStep demoListState) = demoListState ∧
     (∀ o : SortOrder, handleSortToggle (handleSortToggle o) = o)) :=
  ⟨by decide, c7_toggle_twice_identity demoListState (by decide)⟩

/-- C2 witness: the amended rendering theorem instantiated at the demo
species, its author as session identity, the Viewing state and a
successful backend result. -/
theorem c2_delete_rendering_witness :
    (Control.deleteBtn ∈ renderedControls demoSpecies "user-1" false ↔
      (demoSpecies.author = "user-1" ∧ false = false)) ∧
    onDelete false none demoSpecies = [] ∧
    Effect.persistDelete demoSpecies.id ∈ onDelete true none demoSpecies :=
  c2_delete_rendering demoSpecies "user-1" false none

/-- C4 witness: the copy-sort frame theorem instantiated at the demo
list state. -/
theorem c4_copy_sort_frame_witness :
    (copySortStep demoListState).source = demoListState.source ∧
    (copySortStep demoListState).sortOrder = demoListState.sortOrder ∧
    copySortStep (copySortStep demoListState) = copySortStep demoListState ∧
    (inPlaceSortStep demoListState).source =
      deriveDisplayed demoListState.source demoListState.sortOrder :=
  c4_copy_sort_frame demoListState

/-- C8 witness: the normalization theorem instantiated at a
whitespace-only string. -/
theorem c8_optional_text_normalizes_witness :
    parseCommonName (some "  ") =
      some (if jsTrim "  " == "" then none else some (jsTrim "  ")) ∧
    parseDescription (some "  ") =
      some (if jsTrim "  " == "" then none else some (jsTrim "  ")) ∧
    parseCommonName (some "  ") ≠ some (some "") ∧
    parseDescription (some "  ") ≠ some (some "") :=
  c8_optional_text_normalizes "  "
